import Mathlib

/-!
Verification of the subprocess readiness-gate / request-proxy examples in
src/06_gpu_and_ml/embeddings/text_embeddings_inference.py and
src/06_gpu_and_ml/text_generation_inference.py.

The Python code is shallowly embedded: the readiness polling loop becomes a
fuel-indexed recursion over an abstract world (per-attempt connectability and
subprocess exit status), the HTTP proxies become pure functions over an
abstract upstream server, and the batching generator becomes a structural
recursion over the input list.
-/

namespace ModalExamples

/-! ## Readiness gate

Embeds the polling loop shared by spawn_server
(embeddings/text_embeddings_inference.py, lines 31-43) and
Model.webserver_ready / Model.__enter__ (text_generation_inference.py,
lines 137-154).  A World describes the environment one attempt at a time:
whether a TCP connect to 127.0.0.1:8000 succeeds at attempt t, and what
process.poll() returns at attempt t (none while the subprocess is running,
some code once it has exited). -/

structure World where
  connectOk : Nat → Bool
  exitCode : Nat → Option Int

/-- Observable events of one gate run: a connection probe, closing the probe
socket on success, the transition to ready (return of the loop), and the
RuntimeError raised with the subprocess exit code. -/
inductive GateEvent where
  | probe
  | closeConn
  | ready
  | fail (code : Int)
deriving DecidableEq, Repr

/-- Outcome of running the loop for a bounded number of attempts:
the loop returned ready after the given number of attempts, raised with the
subprocess exit code after the given number of attempts, or is still polling
when the attempt budget runs out (the source loop itself is unbounded). -/
inductive GateOutcome where
  | ready (attempts : Nat)
  | failed (code : Int) (attempts : Nat)
  | running
deriving DecidableEq, Repr

/-- One iteration per attempt index t: try the connect; on success return
ready; on failure poll the process and raise its exit code when it has
exited, otherwise retry the next attempt. -/
def spawn_server_loop (w : World) : Nat → Nat → GateOutcome
  | 0, _ => .running
  | fuel + 1, t =>
    if w.connectOk t then .ready (t + 1)
    else
      match w.exitCode t with
      | some c => .failed c (t + 1)
      | none => spawn_server_loop w fuel (t + 1)

/-- spawn_server's polling loop, run for at most fuel attempts from attempt 0. -/
def spawn_server (w : World) (fuel : Nat) : GateOutcome :=
  spawn_server_loop w fuel 0

/-- The event trace of the same loop: each attempt probes once; a successful
attempt closes the probe socket and transitions to ready; a failed attempt on
an exited process raises. -/
def spawn_server_trace_loop (w : World) : Nat → Nat → List GateEvent
  | 0, _ => []
  | fuel + 1, t =>
    if w.connectOk t then [.probe, .closeConn, .ready]
    else
      match w.exitCode t with
      | some c => [.probe, .fail c]
      | none => .probe :: spawn_server_trace_loop w fuel (t + 1)

def spawn_server_trace (w : World) (fuel : Nat) : List GateEvent :=
  spawn_server_trace_loop w fuel 0

/-! ## Embedding proxy

Embeds TextEmbeddingsInference.embed
(embeddings/text_embeddings_inference.py, lines 90-100).  The upstream server
is a function from the POSTed inputs list to an HTTP response (status plus the
JSON array of vectors); embed returns the list of HTTP requests it issued
together with either an error or the identifier-to-vector association. -/

/-- One HTTP request issued by embed: the path and the JSON body's inputs
array.  Identifiers never appear in a request. -/
structure EmbedCall where
  path : String
  inputs : List String
deriving DecidableEq, Repr

/-- An upstream HTTP response: status code and the decoded JSON array of
numeric vectors. -/
structure EmbedResponse where
  status : Nat
  body : List (List Int)
deriving DecidableEq, Repr

inductive EmbedError where
  /-- ids, inputs = zip(*inputs_with_ids) raises on the empty input
  (zip() yields nothing, so unpacking two names fails). -/
  | unpack
  /-- resp.raise_for_status() raised on a non-success HTTP status. -/
  | upstream (status : Nat)
deriving DecidableEq, Repr

/-- httpx's notion of a success status, as checked by raise_for_status. -/
def is_success (status : Nat) : Bool :=
  200 ≤ status && status < 300

/-- TextEmbeddingsInference.embed: unpack identifiers and texts, POST /embed
with the texts as the inputs array, raise on non-success status, else zip the
identifiers with the returned vectors positionally.
(np.array(zip(ids, outputs)) is modelled as the zipped association list.) -/
def embed (inputs_with_ids : List (Nat × String))
    (server : List String → EmbedResponse) :
    List EmbedCall × Except EmbedError (List (Nat × List Int)) :=
  match inputs_with_ids with
  | [] => ([], .error .unpack)
  | _ :: _ =>
    let ids := inputs_with_ids.map Prod.fst
    let inputs := inputs_with_ids.map Prod.snd
    let resp := server inputs
    if is_success resp.status then
      ([⟨"/embed", inputs⟩], .ok (ids.zip resp.body))
    else
      ([⟨"/embed", inputs⟩], .error (.upstream resp.status))

/-! ## Batching

Embeds generate_batches (embeddings/text_embeddings_inference.py, lines
153-160), parameterised by the batch size (the source fixes it to
BATCH_SIZE = 32).  The loop accumulates items and yields a batch exactly when
it reaches the batch size; when the input is exhausted the loop simply ends,
so a trailing batch shorter than the batch size is never yielded. -/

def BATCH_SIZE : Nat := 32

def generate_batches_loop (B : Nat) : List α → List α → List (List α)
  | _, [] => []
  | batch, item :: rest =>
    let batch' := batch ++ [item]
    if batch'.length = B then batch' :: generate_batches_loop B [] rest
    else generate_batches_loop B batch' rest

def generate_batches (data : List α) (B : Nat) : List (List α) :=
  generate_batches_loop B [] data

/-- A server that answers every embed request successfully, assigning each
text the vector vec text, positionally aligned with the inputs array. -/
def okServer (vec : String → List Int) : List String → EmbedResponse :=
  fun inputs => ⟨200, inputs.map vec⟩

/-- embed_dataset's embedding pipeline (embeddings/
text_embeddings_inference.py, lines 141-168): split the data with
generate_batches and call embed once per yielded batch, collecting every
issued HTTP request and the union of the returned associations. -/
def embed_dataset (data : List (Nat × String)) (B : Nat)
    (vec : String → List Int) :
    List EmbedCall × List (Nat × List Int) :=
  let results := (generate_batches data B).map fun b => embed b (okServer vec)
  ((results.map Prod.fst).flatten,
   (results.map fun r =>
      match r.2 with
      | .ok m => m
      | .error _ => []).flatten)

/-! ## Generation proxy

Embeds Model.generate and Model.generate_stream
(text_generation_inference.py, lines 159-174).  The upstream client is a
function from the request (templated prompt and max_new_tokens) to a result. -/

/-- A call to the upstream text-generation client: prompt plus the
max_new_tokens bound. -/
structure GenRequest where
  prompt : String
  max_new_tokens : Nat
deriving DecidableEq, Repr

structure GenResult where
  generated_text : String
deriving DecidableEq, Repr

/-- The fixed instruction template self.template, with system and user
substituted for its placeholders. -/
def template (system user : String) : String :=
  "<s>[INST] <<SYS>>\n" ++ system ++ "\n<</SYS>>\n\n" ++ user ++ " [/INST] "

/-- Model.generate: wrap the question in the template with an empty system
prompt, call the upstream client with max_new_tokens hardcoded to 1024, and
return the generated text.  The issued request is returned alongside. -/
def generate (question : String) (upstream : GenRequest → GenResult) :
    GenRequest × String :=
  let req : GenRequest := ⟨template "" question, 1024⟩
  (req, (upstream req).generated_text)

/-- Spec-side variant of the blocking call, following the spec's words that
the upper bound on generated token count is caller-specified and passed
through to the upstream generate call.  Used only to compare against the
source's generate, which hardcodes 1024. -/
def generate_spec_callerBound (question : String) (maxTok : Nat)
    (upstream : GenRequest → GenResult) : GenRequest × String :=
  let req : GenRequest := ⟨template "" question, maxTok⟩
  (req, (upstream req).generated_text)

/-- One element of the upstream token stream: decoded text and the
special/control flag. -/
structure Token where
  text : String
  special : Bool
deriving DecidableEq, Repr

structure StreamResponse where
  token : Token
deriving DecidableEq, Repr

/-- Model.generate_stream's consumer-visible output: iterate the upstream
stream and yield response.token.text exactly when the token is not special.
The upstream stream is the (finite) list of responses emitted before the
stream closes. -/
def generate_stream : List StreamResponse → List String
  | [] => []
  | r :: rest =>
    if r.token.special then generate_stream rest
    else r.token.text :: generate_stream rest

/-! ## Lifecycle hook

Embeds TextEmbeddingsInference.__exit__ and Model.__exit__, both of which
call process.terminate().  Popen.terminate sends SIGTERM via send_signal,
which first polls the process and does nothing when it has already
terminated. -/

inductive Sig where
  | sigterm
  | sigkill
deriving DecidableEq, Repr

/-- The subprocess handle as the lifecycle hook sees it: the exit code once
the process has terminated, none while it is running. -/
structure ProcessHandle where
  exited : Option Int
deriving DecidableEq, Repr

/-- process.terminate(): a no-op on an already-terminated process, otherwise
send SIGTERM; the handle itself is unchanged (the signal only requests
termination). -/
def terminate (p : ProcessHandle) : ProcessHandle × Option Sig :=
  match p.exited with
  | some _ => (p, none)
  | none => (p, some .sigterm)

/-! ## Concrete worlds used by witnesses and counterexamples -/

/-- A subprocess that never opens the port and never exits. -/
def hangWorld : World :=
  ⟨fun _ => false, fun _ => none⟩

/-- A subprocess that never opens the port and has exited with code 3 from
attempt 2 onwards. -/
def deadWorld : World :=
  ⟨fun _ => false, fun t => if 2 ≤ t then some 3 else none⟩

/-- A subprocess that keeps running and accepts connections from attempt 2
onwards. -/
def readyWorld : World :=
  ⟨fun t => decide (2 ≤ t), fun _ => none⟩

/-! ## Gate lemmas -/

/-- If the port is never connectable and the subprocess has exited with code
E from attempt e onwards, every sufficiently fuelled run of the loop from an
attempt index at most e raises E at attempt e. -/
theorem spawn_server_loop_failed (w : World) (e : Nat) (E : Int)
    (hconn : ∀ t, w.connectOk t = false)
    (hexit : ∀ t, w.exitCode t = if e ≤ t then some E else none) :
    ∀ fuel t, t ≤ e → e < t + fuel →
      spawn_server_loop w fuel t = .failed E (e + 1) := by
  intro fuel
  induction fuel with
  | zero => intro t h1 h2; omega
  | succ n ih =>
    intro t h1 h2
    by_cases he : e ≤ t
    · have ht : t = e := le_antisymm h1 he
      subst ht
      simp [spawn_server_loop, hconn t, hexit t]
    · have h3 := ih (t + 1) (by omega) (by omega)
      simp [spawn_server_loop, hconn t, hexit t, he, h3]

/-- If the first connectable attempt is k and the subprocess is still running
before it, every sufficiently fuelled run of the loop from an attempt index
at most k returns ready at attempt k, with a trace of k failed probes
followed by one probe, the socket close and the ready transition. -/
theorem spawn_server_loop_ready (w : World) (k : Nat)
    (hconn : ∀ j, j < k → w.connectOk j = false)
    (hexit : ∀ j, j < k → w.exitCode j = none)
    (hk : w.connectOk k = true) :
    ∀ fuel t, t ≤ k → k < t + fuel →
      spawn_server_loop w fuel t = .ready (k + 1) ∧
        spawn_server_trace_loop w fuel t =
          List.replicate (k - t) .probe ++ [.probe, .closeConn, .ready] := by
  intro fuel
  induction fuel with
  | zero => intro t h1 h2; omega
  | succ n ih =>
    intro t h1 h2
    by_cases he : t = k
    · subst he
      refine ⟨?_, ?_⟩
      · simp [spawn_server_loop, hk]
      · simp [spawn_server_trace_loop, hk]
    · have hlt : t < k := lt_of_le_of_ne h1 he
      obtain ⟨ihr, iht⟩ := ih (t + 1) (by omega) (by omega)
      have hkt : k - t = (k - (t + 1)) + 1 := by omega
      refine ⟨?_, ?_⟩
      · simp [spawn_server_loop, hconn t hlt, hexit t hlt, ihr]
      · simp [spawn_server_trace_loop, hconn t hlt, hexit t hlt, iht, hkt,
          List.replicate_succ]

/-- If the port is never connectable and the subprocess never exits, the loop
is still polling after any number of attempts, its trace being nothing but
probes. -/
theorem spawn_server_loop_hangs (w : World)
    (hconn : ∀ t, w.connectOk t = false)
    (hexit : ∀ t, w.exitCode t = none) :
    ∀ fuel t, spawn_server_loop w fuel t = .running ∧
      spawn_server_trace_loop w fuel t = List.replicate fuel .probe := by
  intro fuel
  induction fuel with
  | zero => exact fun t => ⟨rfl, rfl⟩
  | succ n ih =>
    intro t
    obtain ⟨h1, h2⟩ := ih (t + 1)
    refine ⟨?_, ?_⟩
    · simp [spawn_server_loop, hconn t, hexit t, h1]
    · simp [spawn_server_trace_loop, hconn t, hexit t, h2, List.replicate_succ]

/-! ## Claims -/

/-- C1: the spec claims that for input [(1,"a"), (2,"b"), (3,"c")] and batch
size 2 the pipeline issues ceil(3/2) = 2 upstream calls, with payloads
["a","b"] and ["c"], and that the combined mapping contains identifiers 1, 2
and 3.  Evaluating the source pipeline at exactly that input shows the code
issues a single call with payload ["a","b"] and a combined mapping covering
only identifiers 1 and 2: generate_batches yields only full batches and
silently drops the trailing short batch, so item (3,"c") is never embedded. -/
theorem embed_dataset_drops_trailing_batch :
    embed_dataset [(1, "a"), (2, "b"), (3, "c")] 2 (fun _ => [0]) =
      ([⟨"/embed", ["a", "b"]⟩], [(1, [0]), (2, [0])]) := by
  decide

/-- C4 counterexample: the upper bound on generated token count is not
caller-specified.  A caller asking for a bound of 512 (spec-side definition)
would issue a request with max_new_tokens = 512, but the source's generate
issues max_new_tokens = 1024 no matter what, so the two disagree on this
concrete input. -/
theorem generate_bound_not_caller_specified :
    (generate "q" (fun _ => ⟨"out"⟩)).1.max_new_tokens = 1024 ∧
      generate "q" (fun _ => ⟨"out"⟩) ≠
        generate_spec_callerBound "q" 512 (fun _ => ⟨"out"⟩) := by
  constructor
  · rfl
  · decide

/-- C4 (amended): blocking generation wraps the question in the fixed
template with an empty system prompt, passes max_new_tokens = 1024 (a
constant of the code, not a caller-supplied value) to the upstream generate
call, and returns exactly the generated_text of the upstream result. -/
theorem generate_blocking (question : String)
    (upstream : GenRequest → GenResult) :
    (generate question upstream).1 = ⟨template "" question, 1024⟩ ∧
      (generate question upstream).2 =
        (upstream ⟨template "" question, 1024⟩).generated_text :=
  ⟨rfl, rfl⟩

/-- C4 witness: the blocking call on a concrete question and upstream
client. -/
theorem generate_blocking_witness :
    (generate "q" (fun _ => ⟨"out"⟩)).1 = ⟨template "" "q", 1024⟩ ∧
      (generate "q" (fun _ => ⟨"out"⟩)).2 = "out" := by
  exact generate_blocking "q" (fun _ => ⟨"out"⟩)

/-- C5: the fragments delivered by generate_stream are exactly the decoded
texts of the upstream tokens whose special flag is false, in upstream
emission order; tokens flagged special are never delivered, and the output is
a finite list that ends when the upstream stream does. -/
theorem generate_stream_filters_special (rs : List StreamResponse) :
    generate_stream rs =
      (rs.filter fun r => !r.token.special).map fun r => r.token.text := by
  induction rs with
  | nil => rfl
  | cons r rest ih =>
    by_cases h : r.token.special = true
    · simp [generate_stream, List.filter, h, ih]
    · simp [generate_stream, List.filter, h, ih]

/-- C5 witness: a concrete upstream stream with one special token between
two ordinary ones delivers exactly the two ordinary texts, in order. -/
theorem generate_stream_filters_special_witness :
    generate_stream [⟨⟨"hi", false⟩⟩, ⟨⟨"</s>", true⟩⟩, ⟨⟨"there", false⟩⟩] =
      ["hi", "there"] := by
  rw [generate_stream_filters_special]
  decide

/-- C9: the lifecycle hook leaves the handle unchanged in every state, only
ever sends SIGTERM (never SIGKILL), sends it exactly when the process has not
already terminated (so on an already-terminated handle it is a no-op), and is
idempotent on the handle. -/
theorem terminate_graceful_idempotent (p : ProcessHandle) :
    terminate p = (p, if p.exited.isSome then none else some Sig.sigterm) ∧
      (terminate p).2 ≠ some Sig.sigkill ∧
      terminate (terminate p).1 = terminate p := by
  obtain ⟨e⟩ := p
  cases e <;> simp [terminate]

/-- C2: if the port never accepts connections and the subprocess has exited
with code E from attempt e onwards, the gate stops polling and raises the
startup failure carrying E at attempt e itself, i.e. at the first polling
attempt after the exit (at most one polling interval later). -/
theorem spawn_server_reports_exit_code (w : World) (e : Nat) (E : Int)
    (fuel : Nat) (hconn : ∀ t, w.connectOk t = false)
    (hexit : ∀ t, w.exitCode t = if e ≤ t then some E else none)
    (hfuel : e < fuel) :
    spawn_server w fuel = .failed E (e + 1) :=
  spawn_server_loop_failed w e E hconn hexit fuel 0 (Nat.zero_le e) (by omega)

/-- C2 witness: a subprocess that exits with code 3 from attempt 2 onwards is
reported as a startup failure with code 3 at attempt 3 = 2 + 1. -/
theorem spawn_server_reports_exit_code_witness :
    spawn_server deadWorld 4 = .failed 3 3 :=
  spawn_server_reports_exit_code deadWorld 2 3 4 (fun _ => rfl) (fun _ => rfl)
    (by decide)

/-- C3 counterexample: after exactly 5 polling attempts against a subprocess
that never opens the port and never exits, the source gate has raised
nothing and is still polling; no overall timeout is configurable, so the
claimed timeout failure after 5 attempts never happens. -/
theorem spawn_server_no_timeout_failure_after_five :
    spawn_server hangWorld 5 = .running ∧
      spawn_server_trace hangWorld 5 = List.replicate 5 .probe := by
  constructor
  · rfl
  · rfl

/-- C3 (amended): the source gate has no overall timeout.  Whenever the
subprocess never opens the port and never exits, the gate polls forever
without raising: after any number of polling attempts it is still running
and its trace holds nothing but connection probes. -/
theorem spawn_server_polls_forever_on_hang (w : World)
    (hconn : ∀ t, w.connectOk t = false)
    (hexit : ∀ t, w.exitCode t = none) (fuel : Nat) :
    spawn_server w fuel = .running ∧
      spawn_server_trace w fuel = List.replicate fuel .probe :=
  spawn_server_loop_hangs w hconn hexit fuel 0

/-- C3 witness: the hanging subprocess world, run for 7 polling attempts. -/
theorem spawn_server_polls_forever_on_hang_witness :
    spawn_server hangWorld 7 = .running ∧
      spawn_server_trace hangWorld 7 = List.replicate 7 .probe :=
  spawn_server_polls_forever_on_hang hangWorld (fun _ => rfl) (fun _ => rfl) 7

/-- C6: if the first connectable attempt is k (the subprocess still running
until then) and the fuel allows reaching it, the gate returns ready after
exactly k + 1 probes; the trace shows the probe socket being closed on the
first successful connect, exactly one transition to ready, and no further
probe afterward. -/
theorem spawn_server_ready_exactly_once (w : World) (k fuel : Nat)
    (hconn : ∀ j, j < k → w.connectOk j = false)
    (hexit : ∀ j, j < k → w.exitCode j = none)
    (hk : w.connectOk k = true) (hfuel : k < fuel) :
    spawn_server w fuel = .ready (k + 1) ∧
      spawn_server_trace w fuel =
        List.replicate k .probe ++ [.probe, .closeConn, .ready] ∧
      (spawn_server_trace w fuel).count .ready = 1 := by
  obtain ⟨h1, h2⟩ :=
    spawn_server_loop_ready w k hconn hexit hk fuel 0 (Nat.zero_le k) (by omega)
  have h2' : spawn_server_trace w fuel =
      List.replicate k .probe ++ [.probe, .closeConn, .ready] := by
    simpa using h2
  refine ⟨h1, h2', ?_⟩
  rw [h2']
  simp [List.count_append, List.count_replicate]

/-- C6 witness: a subprocess that becomes connectable at attempt 2 makes the
gate ready after 3 probes, with the expected trace. -/
theorem spawn_server_ready_exactly_once_witness :
    spawn_server readyWorld 5 = .ready 3 ∧
      spawn_server_trace readyWorld 5 =
        List.replicate 2 .probe ++ [.probe, .closeConn, .ready] ∧
      (spawn_server_trace readyWorld 5).count .ready = 1 :=
  spawn_server_ready_exactly_once readyWorld 2 5 (by decide) (by decide)
    (by decide) (by decide)

/-- C7: for every non-empty batch whose upstream response is successful,
embed issues exactly one POST /embed request whose body carries only the
texts (in batch order, identifiers absent), and returns the association
pairing the i-th identifier with the i-th returned vector. -/
theorem embed_one_request_positional_pairing (batch : List (Nat × String))
    (server : List String → EmbedResponse) (hne : batch ≠ [])
    (hok : is_success (server (batch.map Prod.snd)).status = true) :
    embed batch server =
      ([⟨"/embed", batch.map Prod.snd⟩],
        .ok ((batch.map Prod.fst).zip (server (batch.map Prod.snd)).body)) := by
  cases batch with
  | nil => exact absurd rfl hne
  | cons a l =>
    simp only [List.map_cons] at hok
    simp [embed, hok]

/-- C7 witness: a one-element batch against a server answering 200 with one
vector. -/
theorem embed_one_request_positional_pairing_witness :
    embed [(1, "a")] (fun _ => ⟨200, [[5]]⟩) =
      ([⟨"/embed", ["a"]⟩], .ok [(1, [5])]) :=
  embed_one_request_positional_pairing [(1, "a")] (fun _ => ⟨200, [[5]]⟩)
    (by decide) rfl

/-- C8: for every non-empty batch, embed issues exactly one upstream request
whatever the response status, and when the status is not a success it fails
with the upstream error carrying that status (no internal retry). -/
theorem embed_upstream_error_no_retry (batch : List (Nat × String))
    (server : List String → EmbedResponse) (hne : batch ≠ []) :
    (embed batch server).1.length = 1 ∧
      (is_success (server (batch.map Prod.snd)).status = false →
        (embed batch server).2 =
          .error (.upstream (server (batch.map Prod.snd)).status)) := by
  cases batch with
  | nil => exact absurd rfl hne
  | cons a l =>
    refine ⟨?_, ?_⟩
    · rcases hb : is_success (server ((a :: l).map Prod.snd)).status with _ | _
      · simp only [List.map_cons] at hb
        simp [embed, hb]
      · simp only [List.map_cons] at hb
        simp [embed, hb]
    · intro hfail
      simp only [List.map_cons] at hfail
      simp [embed, hfail]

/-- C8 witness: a one-element batch against a server answering 500 issues one
request and fails with the upstream error carrying 500. -/
theorem embed_upstream_error_no_retry_witness :
    (embed [(1, "a")] (fun _ => ⟨500, []⟩)).1.length = 1 ∧
      (embed [(1, "a")] (fun _ => ⟨500, []⟩)).2 = .error (.upstream 500) :=
  ⟨(embed_upstream_error_no_retry [(1, "a")] (fun _ => ⟨500, []⟩) (by decide)).1,
    (embed_upstream_error_no_retry [(1, "a")] (fun _ => ⟨500, []⟩) (by decide)).2
      rfl⟩

/-- C9 witness: on an exited handle the hook is a no-op; on a running handle
it sends SIGTERM and leaves the handle unchanged. -/
theorem terminate_graceful_idempotent_witness :
    terminate ⟨some 0⟩ = (⟨some 0⟩, none) ∧
      terminate ⟨none⟩ = (⟨none⟩, some Sig.sigterm) :=
  ⟨by exact (terminate_graceful_idempotent ⟨some 0⟩).1,
    by exact (terminate_graceful_idempotent ⟨none⟩).1⟩

/-- C10: on the empty input sequence, embed fails while unpacking the pairs
(before building any request): whatever the server's behaviour, no HTTP
request at all is issued and the unpack error is raised. -/
theorem embed_empty_input (server : List String → EmbedResponse) :
    embed [] server = ([], .error .unpack) :=
  rfl

/-- C10 witness: the empty input against a concrete server issues no request
and fails with the unpack error. -/
theorem embed_empty_input_witness :
    embed [] (fun _ => ⟨200, []⟩) = ([], .error .unpack) :=
  embed_empty_input (fun _ => ⟨200, []⟩)

end ModalExamples
